import Mathlib

set_option allowUnsafeReducibility true
attribute [semireducible] Rat.ofScientific Rat.add Rat.sub Rat.mul Rat.inv

/-!
Shallow embedding of the Meta-Evaluation & Rotation Engine
(`src/services/meta_evaluation_service.py`) and proofs about it.

Numeric values are modelled as rationals (`ℚ`); database rows fetched by the
service are passed in explicitly; every call to `random.uniform` or
`datetime.now()` in the source is modelled as an explicit argument, so all
definitions are pure and executable.
-/

namespace MetaEval

/-- The fixed agent roster (`self.agents` in `MetaEvaluationService.__init__`). -/
def agents : List String :=
  ["ForecastAgent", "MomentumAgent", "VolatilityAgent", "SentimentAgent",
   "RiskAgent", "CorrelationAgent", "StrategyAgent", "RLStrategyAgent",
   "EventImpactAgent", "DayForecastAgent"]

/-- The hard-coded active agent set used by `_evaluate_rotation_need`. -/
def currentAgents : List String := ["ForecastAgent", "MomentumAgent", "VolatilityAgent"]

/-! ## Regime Classifier -/

/-- The regime-label decision of `_detect_market_regime` (lines 184-193), as a
function of the computed annualized volatility and total-period trend. -/
def detectRegimeLabel (volatility trend : ℚ) : String :=
  if volatility > 0.25 then "volatile"
  else if trend > 0.05 then "bull"
  else if trend < -0.05 then "bear"
  else if |trend| < 0.02 then "neutral"
  else "trending"

/-- The regime/confidence decision of `_analyze_market_regime` (lines 422-436),
as a function of the computed volatility and trend. -/
def analyzeMarketRegime (volatility trend : ℚ) : String × ℚ :=
  if volatility > 0.25 then ("volatile", min 0.95 (volatility * 2))
  else if trend > 0.05 then ("bull", min 0.95 (|trend| * 10))
  else if trend < -0.05 then ("bear", min 0.95 (|trend| * 10))
  else if |trend| < 0.02 then ("neutral", 0.8)
  else ("trending", min 0.95 (|trend| * 8))

/-! ## Performance Scorer -/

/-- One row of the `agent_signals` query in `_calculate_agent_performance`. -/
structure Prediction where
  confidence : ℚ
  predicted_direction : String
  actual_direction : String
deriving DecidableEq

/-- The record produced by `_calculate_agent_performance` (the `AgentPerformance`
dataclass of the source). -/
structure AgentPerformance where
  agent_name : String
  accuracy : ℚ
  sharpe_ratio : ℚ
  total_return : ℚ
  max_drawdown : ℚ
  win_rate : ℚ
  confidence : ℚ
  response_time : ℚ
  regime : String
  timestamp : String
deriving DecidableEq

/-- Embedding of `_calculate_agent_performance` (lines 201-269).  The database
fetch is passed in as `fetch` (`.error` models the fetch raising); the
`random.uniform` draws for the primary-path response time, the fallback base
performance and the fallback response time, and `datetime.now()`, are the
remaining arguments. -/
def calculateAgentPerformance (agent_name regime : String)
    (fetch : Except String (List Prediction))
    (primaryRT fallbackBase fallbackRT : ℚ) (now : String) : AgentPerformance :=
  match fetch with
  | .error _ =>
      { agent_name := agent_name, accuracy := 0.5, sharpe_ratio := 0,
        total_return := 0, max_drawdown := 0.1, win_rate := 0.5,
        confidence := 0.5, response_time := 1, regime := regime, timestamp := now }
  | .ok predictions =>
      match predictions with
      | [] =>
          let base := fallbackBase
          { agent_name := agent_name, accuracy := base,
            sharpe_ratio := (base - 0.5) * 2, total_return := (base - 0.5) * 0.15,
            max_drawdown := 0.1 - base * 0.15, win_rate := base,
            confidence := base, response_time := fallbackRT,
            regime := regime, timestamp := now }
      | p :: ps =>
          let predictions := p :: ps
          let total : ℕ := predictions.length
          let correct : ℕ :=
            (predictions.filter (fun q => q.predicted_direction = q.actual_direction)).length
          let accuracy : ℚ := if total > 0 then (correct : ℚ) / (total : ℚ) else 0.5
          let avg_confidence : ℚ := ((predictions.map Prediction.confidence).sum) / (total : ℚ)
          { agent_name := agent_name, accuracy := accuracy,
            sharpe_ratio := max 0 ((accuracy - 0.5) * 4),
            total_return := (accuracy - 0.5) * 0.2,
            max_drawdown := max 0 (0.1 - accuracy * 0.2), win_rate := accuracy,
            confidence := avg_confidence, response_time := primaryRT,
            regime := regime, timestamp := now }

/-! ## Ranking Engine -/

/-- One row of the `meta_agent_performance` query in `_calculate_regime_rankings`. -/
structure PerfRow where
  agent_name : String
  accuracy : ℚ
  sharpe_ratio : ℚ
  total_return : ℚ
  max_drawdown : ℚ
  win_rate : ℚ
  confidence : ℚ
  response_time : ℚ
deriving DecidableEq

/-- One ranking dictionary built by `_calculate_regime_rankings` /
`_get_fallback_rankings` (`rank := 0` models the dictionary before the `rank`
key is assigned). -/
structure RankingEntry where
  agent_name : String
  rank : ℕ
  composite_score : ℚ
  accuracy : ℚ
  sharpe_ratio : ℚ
  total_return : ℚ
  max_drawdown : ℚ
  win_rate : ℚ
  confidence : ℚ
  response_time : ℚ
deriving DecidableEq

/-- The weighted composite score of `_calculate_regime_rankings` (lines 290-297). -/
def compositeScore (p : PerfRow) : ℚ :=
  p.accuracy * 0.25 + p.sharpe_ratio * 0.20 + p.total_return * 0.20 +
    p.win_rate * 0.15 + p.confidence * 0.10 + (1 / (1 + p.response_time)) * 0.10

/-- The ranking dictionary built for one performance row (lines 299-309). -/
def toRankingEntry (p : PerfRow) : RankingEntry :=
  { agent_name := p.agent_name, rank := 0, composite_score := compositeScore p,
    accuracy := p.accuracy, sharpe_ratio := p.sharpe_ratio,
    total_return := p.total_return, max_drawdown := p.max_drawdown,
    win_rate := p.win_rate, confidence := p.confidence,
    response_time := p.response_time }

/-- Stable insertion step for a descending sort by `key`: the new element goes
after every already-placed element whose key is at least as large. -/
def insertD {α : Type} (key : α → ℚ) (x : α) : List α → List α
  | [] => [x]
  | y :: ys => if key x ≤ key y then y :: insertD key x ys else x :: y :: ys

/-- Stable descending sort by `key`, processing the input left to right; this
models Python's stable `list.sort(key=..., reverse=True)`. -/
def sortD {α : Type} (key : α → ℚ) (l : List α) : List α :=
  l.foldl (fun acc x => insertD key x acc) []

/-- The rank-assignment loop `for i, ranking in enumerate(rankings):
ranking['rank'] = i + 1` (lines 315-316 and 349-350). -/
def assignRanksFrom (n : ℕ) : List RankingEntry → List RankingEntry
  | [] => []
  | e :: es => { e with rank := n + 1 } :: assignRanksFrom (n + 1) es

/-- One synthetic fallback ranking dictionary of `_get_fallback_rankings`
(lines 330-343), for roster position `i`. -/
def mkFallbackEntry (i : ℕ) (agent : String) (base rt : ℚ) : RankingEntry :=
  { agent_name := agent, rank := i + 1, composite_score := base, accuracy := base,
    sharpe_ratio := (base - 0.5) * 2, total_return := (base - 0.5) * 0.15,
    max_drawdown := 0.1 - base * 0.15, win_rate := base, confidence := base,
    response_time := rt }

/-- The `for i, agent in enumerate(self.agents)` loop of `_get_fallback_rankings`;
`baseDraw i` and `rtDraw i` are the two `random.uniform` draws for position `i`. -/
def fallbackEntriesFrom (baseDraw rtDraw : ℕ → ℚ) (i : ℕ) :
    List String → List RankingEntry
  | [] => []
  | a :: as =>
      mkFallbackEntry i a (baseDraw i) (rtDraw i) ::
        fallbackEntriesFrom baseDraw rtDraw (i + 1) as

/-- Embedding of `_get_fallback_rankings` (lines 327-352). -/
def getFallbackRankings (baseDraw rtDraw : ℕ → ℚ) : List RankingEntry :=
  assignRanksFrom 0
    (sortD RankingEntry.composite_score (fallbackEntriesFrom baseDraw rtDraw 0 agents))

/-- Embedding of `_calculate_regime_rankings` (lines 271-325).  The database
fetch for the regime is passed in as `fetch` (`.error` models the fetch
raising); the fallback random draws are passed as streams. -/
def calculateRegimeRankings (fetch : Except String (List PerfRow))
    (baseDraw rtDraw : ℕ → ℚ) : List RankingEntry :=
  match fetch with
  | .error _ => getFallbackRankings baseDraw rtDraw
  | .ok performances =>
      if performances.isEmpty then getFallbackRankings baseDraw rtDraw
      else
        assignRanksFrom 0
          (sortD RankingEntry.composite_score (performances.map toRankingEntry))

/-! ## Rotation Decision Engine -/

/-- The `RotationDecision` dataclass of the source. -/
structure RotationDecision where
  decision_id : String
  from_agent : String
  to_agent : String
  reason : String
  confidence : ℚ
  expected_improvement : ℚ
  regime : String
  timestamp : String
deriving DecidableEq

/-- Rendering of a rational as a two-decimal percentage, modelling Python's
f-string format specifier used for the decision reason. -/
def formatPercent (q : ℚ) : String :=
  let cents : ℤ := round (q * 10000)
  let r : ℕ := (cents % 100).toNat
  toString (cents / 100) ++ "." ++ (if r < 10 then "0" else "") ++ toString r ++ "%"

/-- Embedding of the decision logic of `_evaluate_rotation_need` (lines
354-397), parameterised by the ranking it reads, the active agent set, the
current regime and the `datetime.now()` timestamp string.  The generator
expression computing `worst_score` is modelled by `find?` on the ranking; its
`StopIteration` case (caught by the enclosing `except`) returns `none`. -/
def evaluateRotationCore (rankings : List RankingEntry) (current_agents : List String)
    (current_regime now : String) : Option RotationDecision :=
  if rankings.length < 2 then none
  else
    match rankings with
    | [] => none
    | best :: _ =>
        match rankings.reverse.find? (fun r => decide (r.agent_name ∈ current_agents)) with
        | none => none
        | some worst =>
            if best.agent_name ∉ current_agents then
              match rankings.find? (fun r => decide (r.agent_name = worst.agent_name)) with
              | none => none
              | some wr =>
                  let improvement := best.composite_score - wr.composite_score
                  if improvement > 0.1 then
                    some { decision_id := "rotation_" ++ now,
                           from_agent := worst.agent_name,
                           to_agent := best.agent_name,
                           reason := "Performance improvement: " ++ formatPercent improvement,
                           confidence := min 0.95 (improvement * 2),
                           expected_improvement := improvement,
                           regime := current_regime,
                           timestamp := now }
                  else none
            else none

/-- `_evaluate_rotation_need` with the source's hard-coded active agent set. -/
def evaluateRotationNeed (rankings : List RankingEntry) (current_regime now : String) :
    Option RotationDecision :=
  evaluateRotationCore rankings currentAgents current_regime now

/-- The fields of a rotation decision that do not come from `datetime.now()`. -/
def decisionBody (d : RotationDecision) : String × String × String × ℚ × ℚ × String :=
  (d.from_agent, d.to_agent, d.reason, d.confidence, d.expected_improvement, d.regime)

/-! ## Summary read operation -/

/-- Row of `meta_regime_analysis` as read by the summary (only the columns the
summary reads are modelled). -/
structure RegimeAnalysisRow where
  regime : String
  confidence : ℚ
  created_at : ℕ
deriving DecidableEq

/-- Row of `meta_agent_rankings` as read by the summary. -/
structure RankingRow where
  agent_name : String
  regime : String
  rank : ℕ
  composite_score : ℚ
  accuracy : ℚ
  created_at : ℕ
deriving DecidableEq

/-- Row of `meta_rotation_decisions` as read by the summary. -/
structure RotationRow where
  decision_id : String
  from_agent : String
  to_agent : String
  reason : String
  confidence : ℚ
  created_at : ℕ
deriving DecidableEq

/-- Row of `meta_agent_performance` as read by the summary's aggregate query. -/
structure PerfDbRow where
  agent_name : String
  accuracy : ℚ
  sharpe_ratio : ℚ
  total_return : ℚ
  response_time : ℚ
  created_at : ℕ
deriving DecidableEq

/-- The stored tables the summary reads. -/
structure DbState where
  regime_analyses : List RegimeAnalysisRow
  agent_rankings : List RankingRow
  rotation_decisions : List RotationRow
  performance_rows : List PerfDbRow
deriving DecidableEq

/-- One `top_agents` element of the summary payload. -/
structure TopAgentEntry where
  agent_name : String
  rank : ℕ
  composite_score : ℚ
  accuracy : ℚ
deriving DecidableEq

/-- One `recent_rotations` element of the summary payload. -/
structure RotationSummaryEntry where
  decision_id : String
  from_agent : String
  to_agent : String
  reason : String
  confidence : ℚ
  created_at : ℕ
deriving DecidableEq

/-- The payload returned by `get_meta_evaluation_summary` (the nested
`performance_summary` dictionary is flattened into fields). -/
structure SummaryPayload where
  current_regime : String
  regime_confidence : ℚ
  top_agents : List TopAgentEntry
  recent_rotations : List RotationSummaryEntry
  total_agents : ℕ
  avg_accuracy : ℚ
  avg_sharpe_ratio : ℚ
  avg_total_return : ℚ
  avg_response_time : ℚ
  last_updated : ℕ
deriving DecidableEq

/-- Embedding of `get_meta_evaluation_summary` (lines 560-628).  `now` models
`datetime.now()` / SQL `NOW()` as a timestamp in seconds; `ORDER BY ... DESC`
is modelled by the descending sort `sortD`, `ORDER BY rank ASC` by sorting
descending on the negated rank, and the 24-hour `INTERVAL` by 86400 seconds. -/
def getMetaEvaluationSummary (db : DbState) (now : ℕ) : SummaryPayload :=
  let regime_analysis :=
    (sortD (fun r => (r.created_at : ℚ)) db.regime_analyses).head?
  let current_regime :=
    match regime_analysis with
    | some r => r.regime
    | none => "neutral"
  let rankings :=
    (sortD (fun r => -(r.rank : ℚ))
      (db.agent_rankings.filter (fun r => decide (r.regime = current_regime)))).take 10
  let recent_rotations :=
    (sortD (fun r => (r.created_at : ℚ)) db.rotation_decisions).take 5
  let recent_perf :=
    db.performance_rows.filter (fun p => decide (now ≤ p.created_at + 86400))
  let n : ℕ := recent_perf.length
  { current_regime := current_regime,
    regime_confidence :=
      match regime_analysis with
      | some r => r.confidence
      | none => 0,
    top_agents := rankings.map (fun r =>
      { agent_name := r.agent_name, rank := r.rank,
        composite_score := r.composite_score, accuracy := r.accuracy }),
    recent_rotations := recent_rotations.map (fun r =>
      { decision_id := r.decision_id, from_agent := r.from_agent,
        to_agent := r.to_agent, reason := r.reason,
        confidence := r.confidence, created_at := r.created_at }),
    total_agents := (recent_perf.map PerfDbRow.agent_name).dedup.length,
    avg_accuracy := if n = 0 then 0 else (recent_perf.map PerfDbRow.accuracy).sum / (n : ℚ),
    avg_sharpe_ratio := if n = 0 then 0 else (recent_perf.map PerfDbRow.sharpe_ratio).sum / (n : ℚ),
    avg_total_return := if n = 0 then 0 else (recent_perf.map PerfDbRow.total_return).sum / (n : ℚ),
    avg_response_time := if n = 0 then 0 else (recent_perf.map PerfDbRow.response_time).sum / (n : ℚ),
    last_updated := now }

/-- The summary payload with its `last_updated` wall-clock field removed. -/
def summaryBody (s : SummaryPayload) :
    String × ℚ × List TopAgentEntry × List RotationSummaryEntry × ℕ × ℚ × ℚ × ℚ × ℚ :=
  (s.current_regime, s.regime_confidence, s.top_agents, s.recent_rotations,
   s.total_agents, s.avg_accuracy, s.avg_sharpe_ratio, s.avg_total_return,
   s.avg_response_time)

/-- A database state with all four tables empty. -/
def emptyDb : DbState :=
  { regime_analyses := [], agent_rankings := [], rotation_decisions := [],
    performance_rows := [] }

/-! ## Concrete data used by witnesses and counterexamples -/

/-- A ranking entry with its `rank` field reset, used to compare ranking
entries up to the assigned position. -/
def stripRank (e : RankingEntry) : RankingEntry := { e with rank := 0 }

/-- A concrete high-scoring performance row. -/
def perfRowHigh : PerfRow :=
  { agent_name := "SentimentAgent", accuracy := 0.8, sharpe_ratio := 1,
    total_return := 0.05, max_drawdown := 0.01, win_rate := 0.8,
    confidence := 0.7, response_time := 1 }

/-- A concrete low-scoring performance row. -/
def perfRowLow : PerfRow :=
  { agent_name := "ForecastAgent", accuracy := 0.4, sharpe_ratio := 0,
    total_return := -0.02, max_drawdown := 0.05, win_rate := 0.4,
    confidence := 0.5, response_time := 1 }

/-- A concrete ranking entry for a non-active agent with composite score 0.8. -/
def rkHigh : RankingEntry :=
  { agent_name := "SentimentAgent", rank := 0, composite_score := 0.8,
    accuracy := 0.8, sharpe_ratio := 0, total_return := 0, max_drawdown := 0,
    win_rate := 0.8, confidence := 0.7, response_time := 1 }

/-- A concrete ranking entry for an active agent with composite score 0.4. -/
def rkLow : RankingEntry :=
  { agent_name := "ForecastAgent", rank := 0, composite_score := 0.4,
    accuracy := 0.4, sharpe_ratio := 0, total_return := 0, max_drawdown := 0,
    win_rate := 0.4, confidence := 0.5, response_time := 1 }

/-- The decision emitted on the ranking `[rkHigh, rkLow]` at time `ts`. -/
def d0 : RotationDecision :=
  { decision_id := "rotation_ts", from_agent := "ForecastAgent",
    to_agent := "SentimentAgent",
    reason := "Performance improvement: 40.00%", confidence := 0.8,
    expected_improvement := 0.4, regime := "bull", timestamp := "ts" }

/-- A fallback score draw inside [0.4, 0.8]: 0.8 at roster position 3 (the
non-active SentimentAgent) and 0.4 elsewhere. -/
def c8Draw : ℕ → ℚ := fun i => if i = 3 then 0.8 else 0.4

/-! ## Properties of the stable descending sort -/

theorem insertD_perm {α : Type} (key : α → ℚ) (x : α) (l : List α) :
    (insertD key x l).Perm (x :: l) := by
  induction l with
  | nil => exact List.Perm.refl _
  | cons y ys ih =>
      unfold insertD
      split
      · exact (ih.cons y).trans (List.Perm.swap x y ys)
      · exact List.Perm.refl _

theorem mem_insertD {α : Type} {key : α → ℚ} {x z : α} {l : List α} :
    z ∈ insertD key x l ↔ z = x ∨ z ∈ l := by
  rw [(insertD_perm key x l).mem_iff, List.mem_cons]

theorem sorted_insertD {α : Type} {key : α → ℚ} (x : α) {l : List α}
    (h : l.Pairwise (fun a b => key b ≤ key a)) :
    (insertD key x l).Pairwise (fun a b => key b ≤ key a) := by
  induction l with
  | nil => simp [insertD]
  | cons y ys ih =>
      rw [List.pairwise_cons] at h
      obtain ⟨hy, hys⟩ := h
      unfold insertD
      split
      · rename_i hxy
        rw [List.pairwise_cons]
        refine ⟨?_, ih hys⟩
        intro z hz
        rcases mem_insertD.mp hz with rfl | hz'
        · exact hxy
        · exact hy z hz'
      · rename_i hxy
        have hyx : key y ≤ key x := le_of_lt (not_le.mp hxy)
        rw [List.pairwise_cons]
        refine ⟨?_, List.pairwise_cons.mpr ⟨hy, hys⟩⟩
        intro z hz
        rcases List.mem_cons.mp hz with rfl | hz'
        · exact hyx
        · exact le_trans (hy z hz') hyx

theorem filter_insertD {α : Type} {key : α → ℚ} (s : ℚ) (x : α) {l : List α}
    (h : l.Pairwise (fun a b => key b ≤ key a)) :
    (insertD key x l).filter (fun a => decide (key a = s)) =
      if key x = s
      then l.filter (fun a => decide (key a = s)) ++ [x]
      else l.filter (fun a => decide (key a = s)) := by
  induction l with
  | nil => by_cases hx : key x = s <;> simp [insertD, hx]
  | cons y ys ih =>
      rw [List.pairwise_cons] at h
      obtain ⟨hy, hys⟩ := h
      unfold insertD
      split
      · rename_i hxy
        rw [List.filter_cons, List.filter_cons, ih hys]
        by_cases hx : key x = s <;> by_cases hyy : key y = s <;> simp [hx, hyy]
      · rename_i hxy
        have hlt : key y < key x := not_le.mp hxy
        by_cases hx : key x = s
        · have hnil : (y :: ys).filter (fun a => decide (key a = s)) = [] := by
            rw [List.filter_eq_nil_iff]
            intro a ha
            simp only [decide_eq_true_eq]
            have hlts : key a < s := by
              rcases List.mem_cons.mp ha with rfl | ha'
              · exact hx ▸ hlt
              · exact lt_of_le_of_lt (hy a ha') (hx ▸ hlt)
            exact ne_of_lt hlts
          rw [if_pos hx, hnil, List.filter_cons]
          simp [hx, hnil]
        · rw [if_neg hx, List.filter_cons]
          simp [hx]

theorem sortDAux_sorted {α : Type} (key : α → ℚ) :
    ∀ (l acc : List α), acc.Pairwise (fun a b => key b ≤ key a) →
      (l.foldl (fun acc x => insertD key x acc) acc).Pairwise
        (fun a b => key b ≤ key a) := by
  intro l
  induction l with
  | nil => intro acc h; exact h
  | cons x xs ih =>
      intro acc h
      rw [List.foldl_cons]
      exact ih _ (sorted_insertD x h)

theorem sortDAux_perm {α : Type} (key : α → ℚ) :
    ∀ (l acc : List α),
      (l.foldl (fun acc x => insertD key x acc) acc).Perm (acc ++ l) := by
  intro l
  induction l with
  | nil => intro acc; simp
  | cons x xs ih =>
      intro acc
      rw [List.foldl_cons]
      refine (ih (insertD key x acc)).trans ?_
      refine ((insertD_perm key x acc).append_right xs).trans ?_
      exact List.perm_middle.symm

theorem sortDAux_filter {α : Type} (key : α → ℚ) (s : ℚ) :
    ∀ (l acc : List α), acc.Pairwise (fun a b => key b ≤ key a) →
      (l.foldl (fun acc x => insertD key x acc) acc).filter
          (fun a => decide (key a = s)) =
        acc.filter (fun a => decide (key a = s)) ++
          l.filter (fun a => decide (key a = s)) := by
  intro l
  induction l with
  | nil => intro acc h; simp
  | cons x xs ih =>
      intro acc h
      rw [List.foldl_cons, ih _ (sorted_insertD x h), filter_insertD s x h,
        List.filter_cons]
      by_cases hx : key x = s <;> simp [hx]

theorem sortD_sorted {α : Type} (key : α → ℚ) (l : List α) :
    (sortD key l).Pairwise (fun a b => key b ≤ key a) :=
  sortDAux_sorted key l [] List.Pairwise.nil

theorem sortD_perm {α : Type} (key : α → ℚ) (l : List α) : (sortD key l).Perm l := by
  simpa using sortDAux_perm key l []

theorem sortD_filter {α : Type} (key : α → ℚ) (s : ℚ) (l : List α) :
    (sortD key l).filter (fun a => decide (key a = s)) =
      l.filter (fun a => decide (key a = s)) := by
  simpa using sortDAux_filter key s l [] List.Pairwise.nil

theorem sortD_length {α : Type} (key : α → ℚ) (l : List α) :
    (sortD key l).length = l.length :=
  (sortD_perm key l).length_eq

/-! ## Properties of rank assignment -/

theorem assignRanksFrom_map_rank (n : ℕ) (l : List RankingEntry) :
    (assignRanksFrom n l).map RankingEntry.rank = List.range' (n + 1) l.length := by
  induction l generalizing n with
  | nil => simp [assignRanksFrom]
  | cons e es ih => simp [assignRanksFrom, List.range'_succ, ih]

theorem assignRanksFrom_map_strip (n : ℕ) (l : List RankingEntry) :
    (assignRanksFrom n l).map stripRank = l.map stripRank := by
  induction l generalizing n with
  | nil => rfl
  | cons e es ih => simp [assignRanksFrom, stripRank, ih]

theorem assignRanksFrom_length (n : ℕ) (l : List RankingEntry) :
    (assignRanksFrom n l).length = l.length := by
  induction l generalizing n with
  | nil => rfl
  | cons e es ih => simp [assignRanksFrom, ih]

theorem assignRanksFrom_map_score (n : ℕ) (l : List RankingEntry) :
    (assignRanksFrom n l).map RankingEntry.composite_score =
      l.map RankingEntry.composite_score := by
  induction l generalizing n with
  | nil => rfl
  | cons e es ih => simp [assignRanksFrom, ih]

theorem assignRanksFrom_filter_strip (n : ℕ) (s : ℚ) (l : List RankingEntry) :
    ((assignRanksFrom n l).filter
        (fun e => decide (e.composite_score = s))).map stripRank =
      (l.filter (fun e => decide (e.composite_score = s))).map stripRank := by
  induction l generalizing n with
  | nil => rfl
  | cons e es ih =>
      simp only [assignRanksFrom, List.filter_cons]
      by_cases he : e.composite_score = s
      · simp [he, stripRank, ih]
      · simp [he, ih]

/-! ## Inversion of the rotation decision engine -/

theorem evaluateRotationCore_some {rankings : List RankingEntry}
    {current_agents : List String} {current_regime now : String} {d : RotationDecision}
    (h : evaluateRotationCore rankings current_agents current_regime now = some d) :
    ∃ best rest worst wr, rankings = best :: rest ∧
      rankings.reverse.find? (fun r => decide (r.agent_name ∈ current_agents)) =
        some worst ∧
      d.from_agent = worst.agent_name ∧
      rankings.find? (fun r => decide (r.agent_name = worst.agent_name)) =
        some wr ∧
      d.from_agent ∈ current_agents ∧
      d.to_agent = best.agent_name ∧
      d.to_agent ∉ current_agents ∧
      d.expected_improvement = best.composite_score - wr.composite_score ∧
      d.expected_improvement > 0.1 ∧
      d.confidence = min 0.95 (d.expected_improvement * 2) ∧
      d.regime = current_regime ∧
      d.timestamp = now := by
  unfold evaluateRotationCore at h
  split at h
  · simp at h
  · split at h
    · simp at h
    · rename_i best rest hlen
      split at h
      · simp at h
      · rename_i worst hworst
        split at h
        · rename_i hbest
          split at h
          · simp at h
          · rename_i wr hwr
            dsimp only at h
            split at h
            · rename_i hgt
              rw [Option.some_inj] at h
              subst h
              have hmem : worst.agent_name ∈ current_agents := by
                have := List.find?_some hworst
                simpa using this
              exact ⟨best, rest, worst, wr, rfl, hworst, rfl, hwr, hmem, rfl,
                hbest, rfl, hgt, rfl, rfl, rfl⟩
            · simp at h
        · simp at h

theorem evaluateRotationCore_none_of_small_gaps {rankings : List RankingEntry}
    {current_agents : List String} {current_regime now : String}
    (hgap : ∀ a ∈ rankings, ∀ b ∈ rankings,
      a.composite_score - b.composite_score ≤ 0.1) :
    evaluateRotationCore rankings current_agents current_regime now = none := by
  cases heval : evaluateRotationCore rankings current_agents current_regime now with
  | none => rfl
  | some d =>
      obtain ⟨best, rest, worst, wr, hr, _, _, hwr, _, _, _, himp, hgt, _, _, _⟩ :=
        evaluateRotationCore_some heval
      have hbest : best ∈ rankings := by rw [hr]; exact List.mem_cons_self _ _
      have hwrm : wr ∈ rankings := List.mem_of_find?_eq_some hwr
      have := hgap best hbest wr hwrm
      rw [himp] at hgt
      linarith

/-! ## Scores appearing in the fallback rankings -/

theorem score_mem_fallbackEntriesFrom (baseDraw rtDraw : ℕ → ℚ) :
    ∀ (as : List String) (i : ℕ) (e : RankingEntry),
      e ∈ fallbackEntriesFrom baseDraw rtDraw i as →
      ∃ j, i ≤ j ∧ j < i + as.length ∧ e.composite_score = baseDraw j := by
  intro as
  induction as with
  | nil => intro i e h; simp [fallbackEntriesFrom] at h
  | cons a as ih =>
      intro i e h
      rw [fallbackEntriesFrom] at h
      rcases List.mem_cons.mp h with rfl | h'
      · exact ⟨i, le_refl i, by simp, rfl⟩
      · obtain ⟨j, hij, hjlt, he⟩ := ih (i + 1) e h'
        exact ⟨j, le_trans (Nat.le_succ i) hij, by simp at hjlt ⊢; omega, he⟩

theorem score_mem_getFallbackRankings (baseDraw rtDraw : ℕ → ℚ) (e : RankingEntry)
    (h : e ∈ getFallbackRankings baseDraw rtDraw) :
    ∃ j, j < agents.length ∧ e.composite_score = baseDraw j := by
  unfold getFallbackRankings at h
  have h1 : e.composite_score ∈
      (assignRanksFrom 0 (sortD RankingEntry.composite_score
        (fallbackEntriesFrom baseDraw rtDraw 0 agents))).map
          RankingEntry.composite_score :=
    List.mem_map_of_mem _ h
  rw [assignRanksFrom_map_score, List.mem_map] at h1
  obtain ⟨e', he', hs⟩ := h1
  have he'' : e' ∈ fallbackEntriesFrom baseDraw rtDraw 0 agents :=
    (sortD_perm _ _).mem_iff.mp he'
  obtain ⟨j, _, hj, hsc⟩ :=
    score_mem_fallbackEntriesFrom baseDraw rtDraw agents 0 e' he''
  refine ⟨j, by simpa using hj, ?_⟩
  rw [← hs, hsc]

/-! ## Claim C1 -/

/-- C1: regime classification follows the fixed precedence with first match
winning: volatility > 0.25 gives `volatile` regardless of trend; otherwise
trend > 0.05 gives `bull`; otherwise trend < -0.05 gives `bear`; otherwise
|trend| < 0.02 gives `neutral`; otherwise `trending`.  The label branch of
`_analyze_market_regime` agrees with `_detect_market_regime`, and volatility
0.30 with trend 0.01 classifies as `volatile`. -/
theorem C1_regime_precedence (v t : ℚ) :
    (v > 0.25 → detectRegimeLabel v t = "volatile") ∧
    (¬ v > 0.25 → t > 0.05 → detectRegimeLabel v t = "bull") ∧
    (¬ v > 0.25 → ¬ t > 0.05 → t < -0.05 → detectRegimeLabel v t = "bear") ∧
    (¬ v > 0.25 → ¬ t > 0.05 → ¬ t < -0.05 → |t| < 0.02 →
      detectRegimeLabel v t = "neutral") ∧
    (¬ v > 0.25 → ¬ t > 0.05 → ¬ t < -0.05 → ¬ |t| < 0.02 →
      detectRegimeLabel v t = "trending") ∧
    (analyzeMarketRegime v t).1 = detectRegimeLabel v t ∧
    detectRegimeLabel 0.30 0.01 = "volatile" := by
  refine ⟨?_, ?_, ?_, ?_, ?_, ?_, ?_⟩
  · intro h; simp [detectRegimeLabel, h]
  · intro h1 h2; simp [detectRegimeLabel, h1, h2]
  · intro h1 h2 h3; simp [detectRegimeLabel, h1, h2, h3]
  · intro h1 h2 h3 h4; simp [detectRegimeLabel, h1, h2, h3, h4]
  · intro h1 h2 h3 h4; simp [detectRegimeLabel, h1, h2, h3, h4]
  · unfold analyzeMarketRegime detectRegimeLabel
    split_ifs <;> rfl
  · norm_num [detectRegimeLabel]

/-- Witness for C1: at volatility 0.30 and trend 0.01 the volatility branch
fires and the label is `volatile`. -/
theorem C1_regime_precedence_witness :
    (0.30 : ℚ) > 0.25 ∧ detectRegimeLabel 0.30 0.01 = "volatile" :=
  ⟨by norm_num, (C1_regime_precedence 0.30 0.01).1 (by norm_num)⟩

/-! ## Claim C2 -/

/-- C2 counterexample: with fallback base draw 0.6 (inside [0.4, 0.7]) the
fallback path does not use the primary-path formulas named by the claim: the
risk-adjusted-return score, cumulative return and max drawdown all differ
from max(0,(base-0.5)*4), (base-0.5)*0.2 and max(0,0.1-base*0.2). -/
theorem C2_counterexample :
    (0.4 : ℚ) ≤ 0.6 ∧ (0.6 : ℚ) ≤ 0.7 ∧
    (calculateAgentPerformance "ForecastAgent" "neutral" (.ok []) 1 0.6 1
        "t").sharpe_ratio ≠ max 0 (((0.6 : ℚ) - 0.5) * 4) ∧
    (calculateAgentPerformance "ForecastAgent" "neutral" (.ok []) 1 0.6 1
        "t").total_return ≠ ((0.6 : ℚ) - 0.5) * 0.2 ∧
    (calculateAgentPerformance "ForecastAgent" "neutral" (.ok []) 1 0.6 1
        "t").max_drawdown ≠ max 0 ((0.1 : ℚ) - 0.6 * 0.2) := by
  refine ⟨by norm_num, by norm_num, ?_, ?_, ?_⟩ <;>
    simp only [calculateAgentPerformance] <;> norm_num

/-- C2 amended: in the fallback path all metrics do derive from the single
synthetic base draw in [0.4, 0.7], but through dampened formulas distinct
from the primary path: risk-adjusted-return score = (base-0.5)*2 (no clamp at
zero), cumulative return = (base-0.5)*0.15, max drawdown = 0.1 - base*0.15
(no clamp), win rate = accuracy = mean confidence = base. -/
theorem C2_fallback_formulas (agent regime : String) (base primaryRT fbRT : ℚ)
    (now : String) (h1 : 0.4 ≤ base) (h2 : base ≤ 0.7) :
    calculateAgentPerformance agent regime (.ok []) primaryRT base fbRT now =
      { agent_name := agent, accuracy := base, sharpe_ratio := (base - 0.5) * 2,
        total_return := (base - 0.5) * 0.15, max_drawdown := 0.1 - base * 0.15,
        win_rate := base, confidence := base, response_time := fbRT,
        regime := regime, timestamp := now } := rfl

/-- Witness for the amended C2 at base draw 0.6. -/
theorem C2_fallback_formulas_witness :
    (0.4 : ℚ) ≤ 0.6 ∧ (0.6 : ℚ) ≤ 0.7 ∧
    calculateAgentPerformance "ForecastAgent" "bull" (.ok []) 1 0.6 2 "t" =
      { agent_name := "ForecastAgent", accuracy := 0.6,
        sharpe_ratio := ((0.6 : ℚ) - 0.5) * 2,
        total_return := ((0.6 : ℚ) - 0.5) * 0.15,
        max_drawdown := 0.1 - 0.6 * 0.15, win_rate := 0.6, confidence := 0.6,
        response_time := 2, regime := "bull", timestamp := "t" } :=
  ⟨by norm_num, by norm_num,
    C2_fallback_formulas "ForecastAgent" "bull" 0.6 1 2 "t" (by norm_num)
      (by norm_num)⟩

/-! ## Claim C9 -/

/-- C9: on any failure while computing an agent's performance the scorer
returns the neutral-default record (accuracy 0.5, risk-adjusted-return score
0, cumulative return 0, win rate 0.5, the given regime label) and never
propagates the error to its caller. -/
theorem C9_error_neutral_default (agent regime errMsg : String)
    (primaryRT base fbRT : ℚ) (now : String) :
    calculateAgentPerformance agent regime (.error errMsg) primaryRT base fbRT
        now =
      { agent_name := agent, accuracy := 0.5, sharpe_ratio := 0,
        total_return := 0, max_drawdown := 0.1, win_rate := 0.5,
        confidence := 0.5, response_time := 1, regime := regime,
        timestamp := now } := rfl

/-! ## Claims C3 and C10: ranking shape -/

theorem calculateRegimeRankings_ok_ne_nil {performances : List PerfRow}
    (h : performances ≠ []) (baseDraw rtDraw : ℕ → ℚ) :
    calculateRegimeRankings (.ok performances) baseDraw rtDraw =
      assignRanksFrom 0
        (sortD RankingEntry.composite_score (performances.map toRankingEntry)) := by
  have hne : performances.isEmpty = false := by
    cases performances with
    | nil => exact absurd rfl h
    | cons p ps => rfl
  simp [calculateRegimeRankings, hne]

theorem assignRanksFrom_pairwise_score (n : ℕ) (l : List RankingEntry)
    (h : l.Pairwise (fun a b => b.composite_score ≤ a.composite_score)) :
    (assignRanksFrom n l).Pairwise
      (fun a b => b.composite_score ≤ a.composite_score) := by
  induction l generalizing n with
  | nil => exact List.Pairwise.nil
  | cons e es ih =>
      rw [List.pairwise_cons] at h
      obtain ⟨he, hes⟩ := h
      rw [assignRanksFrom, List.pairwise_cons]
      refine ⟨?_, ih (n + 1) hes⟩
      intro b hb
      have hmem : b.composite_score ∈
          (assignRanksFrom (n + 1) es).map RankingEntry.composite_score :=
        List.mem_map_of_mem _ hb
      rw [assignRanksFrom_map_score, List.mem_map] at hmem
      obtain ⟨b', hb', hbs⟩ := hmem
      have hle := he b' hb'
      rw [hbs] at hle
      exact hle

theorem fallbackEntriesFrom_length (baseDraw rtDraw : ℕ → ℚ) :
    ∀ (as : List String) (i : ℕ),
      (fallbackEntriesFrom baseDraw rtDraw i as).length = as.length := by
  intro as
  induction as with
  | nil => intro i; rfl
  | cons a as ih => intro i; simp [fallbackEntriesFrom, ih]

/-- C3: for every non-empty record set the produced ranking is sorted by
composite score descending, the assigned ranks form the contiguous sequence
1..N, and the sort is stable (for each score value, the entries carrying that
score appear in input order); the synthesized fallback ranking satisfies the
same three properties with respect to its synthetic per-roster entries. -/
theorem C3_ranking_sorted_stable (performances : List PerfRow)
    (h : performances ≠ []) (baseDraw rtDraw : ℕ → ℚ) :
    ((calculateRegimeRankings (.ok performances) baseDraw rtDraw).Pairwise
        (fun a b => b.composite_score ≤ a.composite_score) ∧
      (calculateRegimeRankings (.ok performances) baseDraw rtDraw).map
          RankingEntry.rank = List.range' 1 performances.length ∧
      ∀ s : ℚ,
        ((calculateRegimeRankings (.ok performances) baseDraw rtDraw).filter
            (fun e => decide (e.composite_score = s))).map stripRank =
          ((performances.map toRankingEntry).filter
            (fun e => decide (e.composite_score = s))).map stripRank) ∧
    ((getFallbackRankings baseDraw rtDraw).Pairwise
        (fun a b => b.composite_score ≤ a.composite_score) ∧
      (getFallbackRankings baseDraw rtDraw).map RankingEntry.rank =
        List.range' 1 agents.length ∧
      ∀ s : ℚ,
        ((getFallbackRankings baseDraw rtDraw).filter
            (fun e => decide (e.composite_score = s))).map stripRank =
          ((fallbackEntriesFrom baseDraw rtDraw 0 agents).filter
            (fun e => decide (e.composite_score = s))).map stripRank) := by
  constructor
  · refine ⟨?_, ?_, ?_⟩
    · rw [calculateRegimeRankings_ok_ne_nil h]
      exact assignRanksFrom_pairwise_score 0 _ (sortD_sorted _ _)
    · rw [calculateRegimeRankings_ok_ne_nil h, assignRanksFrom_map_rank,
        sortD_length, List.length_map]
    · intro s
      rw [calculateRegimeRankings_ok_ne_nil h, assignRanksFrom_filter_strip,
        sortD_filter]
  · refine ⟨?_, ?_, ?_⟩
    · exact assignRanksFrom_pairwise_score 0 _ (sortD_sorted _ _)
    · rw [getFallbackRankings, assignRanksFrom_map_rank, sortD_length,
        fallbackEntriesFrom_length]
    · intro s
      rw [getFallbackRankings, assignRanksFrom_filter_strip, sortD_filter]

theorem assignRanksFrom_filter_agent (n : ℕ) (a : String)
    (l : List RankingEntry) :
    ((assignRanksFrom n l).filter (fun e => decide (e.agent_name = a))).length =
      (l.filter (fun e => decide (e.agent_name = a))).length := by
  induction l generalizing n with
  | nil => rfl
  | cons e es ih =>
      rw [assignRanksFrom, List.filter_cons, List.filter_cons]
      by_cases he : e.agent_name = a
      · simp [he, ih]
      · simp [he, ih]

/-- C10: the Ranking Engine produces exactly one entry per input performance
record: the output length equals the record count, an agent identifier
occurring k times among the records occurs k times in the ranking, and all
assigned rank positions are distinct. -/
theorem C10_entry_per_record (performances : List PerfRow)
    (h : performances ≠ []) (baseDraw rtDraw : ℕ → ℚ) (a : String) :
    (calculateRegimeRankings (.ok performances) baseDraw rtDraw).length =
      performances.length ∧
    ((calculateRegimeRankings (.ok performances) baseDraw rtDraw).filter
        (fun e => decide (e.agent_name = a))).length =
      (performances.filter (fun p => decide (p.agent_name = a))).length ∧
    ((calculateRegimeRankings (.ok performances) baseDraw rtDraw).map
        RankingEntry.rank).Nodup := by
  refine ⟨?_, ?_, ?_⟩
  · rw [calculateRegimeRankings_ok_ne_nil h, assignRanksFrom_length,
      sortD_length, List.length_map]
  · rw [calculateRegimeRankings_ok_ne_nil h, assignRanksFrom_filter_agent]
    have hperm :
        ((sortD RankingEntry.composite_score
            (performances.map toRankingEntry)).filter
          (fun e => decide (e.agent_name = a))).length =
        ((performances.map toRankingEntry).filter
          (fun e => decide (e.agent_name = a))).length :=
      ((sortD_perm _ _).filter _).length_eq
    rw [hperm, List.filter_map]
    rw [List.length_map]
    rfl
  · rw [calculateRegimeRankings_ok_ne_nil h, assignRanksFrom_map_rank]
    exact List.nodup_range' _ _

/-- Witness for C3 on a concrete two-record input: ranks are 1..2 and the
output is sorted by composite score descending. -/
theorem C3_ranking_sorted_stable_witness :
    ([perfRowHigh, perfRowLow] : List PerfRow) ≠ [] ∧
    (calculateRegimeRankings (.ok [perfRowHigh, perfRowLow]) (fun _ => 0.5)
        (fun _ => 1)).map RankingEntry.rank = List.range' 1 2 ∧
    (calculateRegimeRankings (.ok [perfRowHigh, perfRowLow]) (fun _ => 0.5)
        (fun _ => 1)).Pairwise
      (fun a b => b.composite_score ≤ a.composite_score) :=
  ⟨by decide,
   (C3_ranking_sorted_stable [perfRowHigh, perfRowLow] (by decide) (fun _ => 0.5)
      (fun _ => 1)).1.2.1,
   (C3_ranking_sorted_stable [perfRowHigh, perfRowLow] (by decide) (fun _ => 0.5)
      (fun _ => 1)).1.1⟩

/-- Witness for C10 on a concrete input in which `SentimentAgent` occurs in
two records: it occurs twice in the output ranking and ranks are distinct. -/
theorem C10_entry_per_record_witness :
    ([perfRowHigh, perfRowLow, perfRowHigh] : List PerfRow) ≠ [] ∧
    ([perfRowHigh, perfRowLow, perfRowHigh].filter
        (fun p => decide (p.agent_name = "SentimentAgent"))).length = 2 ∧
    ((calculateRegimeRankings (.ok [perfRowHigh, perfRowLow, perfRowHigh])
        (fun _ => 0.5) (fun _ => 1)).filter
      (fun e => decide (e.agent_name = "SentimentAgent"))).length =
      ([perfRowHigh, perfRowLow, perfRowHigh].filter
        (fun p => decide (p.agent_name = "SentimentAgent"))).length ∧
    ((calculateRegimeRankings (.ok [perfRowHigh, perfRowLow, perfRowHigh])
        (fun _ => 0.5) (fun _ => 1)).map RankingEntry.rank).Nodup :=
  ⟨by decide, by decide,
   (C10_entry_per_record [perfRowHigh, perfRowLow, perfRowHigh] (by decide)
      (fun _ => 0.5) (fun _ => 1) "SentimentAgent").2.1,
   (C10_entry_per_record [perfRowHigh, perfRowLow, perfRowHigh] (by decide)
      (fun _ => 0.5) (fun _ => 1) "SentimentAgent").2.2⟩

/-! ## Claim C4 -/

/-- C4: every decision the engine emits is justified by an improvement equal
to the best composite score minus the rotation candidate's composite score,
strictly greater than 0.10, and carries confidence min(0.95, improvement*2)
and expected improvement equal to that delta; conversely, whenever the
candidate determined by the worst-to-best scan gives a score delta of at most
0.10 (in particular exactly 0.10), no decision is produced. -/
theorem C4_rotation_threshold (rankings : List RankingEntry)
    (current_agents : List String) (current_regime now : String) :
    (∀ d, evaluateRotationCore rankings current_agents current_regime now =
        some d →
      ∃ best rest worst wr, rankings = best :: rest ∧
        rankings.reverse.find?
          (fun r => decide (r.agent_name ∈ current_agents)) = some worst ∧
        d.from_agent = worst.agent_name ∧
        rankings.find? (fun r => decide (r.agent_name = worst.agent_name)) =
          some wr ∧
        d.expected_improvement = best.composite_score - wr.composite_score ∧
        d.expected_improvement > 0.1 ∧
        d.confidence = min 0.95 (d.expected_improvement * 2)) ∧
    (∀ best rest worst wr, rankings = best :: rest →
      rankings.reverse.find?
        (fun r => decide (r.agent_name ∈ current_agents)) = some worst →
      rankings.find? (fun r => decide (r.agent_name = worst.agent_name)) =
        some wr →
      best.composite_score - wr.composite_score ≤ 0.1 →
      evaluateRotationCore rankings current_agents current_regime now = none) := by
  constructor
  · intro d h
    obtain ⟨best, rest, worst, wr, h1, h2, h3, h4, _, _, _, h8, h9, h10, _, _⟩ :=
      evaluateRotationCore_some h
    exact ⟨best, rest, worst, wr, h1, h2, h3, h4, h8, h9, h10⟩
  · intro best rest worst wr hr hw hwr hle
    cases heval : evaluateRotationCore rankings current_agents current_regime now
      with
    | none => rfl
    | some d =>
        obtain ⟨best', rest', worst', wr', h1, h2, _, h4, _, _, _, h8, h9, _,
          _, _⟩ := evaluateRotationCore_some heval
        rw [hr] at h1
        injection h1 with hb hrest
        subst hb
        rw [hw] at h2
        injection h2 with hwq
        subst hwq
        rw [hwr] at h4
        injection h4 with hwrq
        subst hwrq
        rw [h8] at h9
        exact absurd h9 (not_lt.mpr hle)

/-- Witness for C4: on a concrete two-entry ranking with score gap 0.4 a
decision is emitted with expected improvement above 0.1 and confidence
min(0.95, improvement*2). -/
theorem C4_rotation_threshold_witness :
    evaluateRotationNeed [rkHigh, rkLow] "bull" "ts" = some d0 ∧
    d0.expected_improvement > 0.1 ∧
    d0.confidence = min 0.95 (d0.expected_improvement * 2) := by
  have heval : evaluateRotationNeed [rkHigh, rkLow] "bull" "ts" = some d0 := by
    decide
  obtain ⟨best, rest, worst, wr, _, _, _, _, _, hgt, hconf⟩ :=
    (C4_rotation_threshold [rkHigh, rkLow] currentAgents "bull" "ts").1 d0 heval
  exact ⟨heval, hgt, hconf⟩

/-! ## Claim C5 -/

/-- C5: every emitted decision's source agent belongs to the active set and
its target agent does not; and no decision is produced when fewer than two
ranking entries exist, when the best-ranked agent is already active, or when
no active agent appears in the ranking. -/
theorem C5_membership_invariants (rankings : List RankingEntry)
    (current_agents : List String) (current_regime now : String) :
    (∀ d, evaluateRotationCore rankings current_agents current_regime now =
        some d →
      d.from_agent ∈ current_agents ∧ d.to_agent ∉ current_agents) ∧
    (rankings.length < 2 →
      evaluateRotationCore rankings current_agents current_regime now = none) ∧
    (∀ best rest, rankings = best :: rest → best.agent_name ∈ current_agents →
      evaluateRotationCore rankings current_agents current_regime now = none) ∧
    ((∀ r ∈ rankings, r.agent_name ∉ current_agents) →
      evaluateRotationCore rankings current_agents current_regime now = none) := by
  refine ⟨?_, ?_, ?_, ?_⟩
  · intro d h
    obtain ⟨_, _, _, _, _, _, _, _, h5, _, h7, _, _, _, _, _⟩ :=
      evaluateRotationCore_some h
    exact ⟨h5, h7⟩
  · intro h
    unfold evaluateRotationCore
    rw [if_pos h]
  · intro best rest hr hbest
    cases heval : evaluateRotationCore rankings current_agents current_regime now
      with
    | none => rfl
    | some d =>
        obtain ⟨best', rest', _, _, h1, _, _, _, _, h6, h7, _, _, _, _, _⟩ :=
          evaluateRotationCore_some heval
        rw [hr] at h1
        injection h1 with hb hrest
        subst hb
        rw [h6] at h7
        exact absurd hbest h7
  · intro h
    cases heval : evaluateRotationCore rankings current_agents current_regime now
      with
    | none => rfl
    | some d =>
        obtain ⟨_, _, worst, _, _, h2, _, _, _, _, _, _, _, _, _, _⟩ :=
          evaluateRotationCore_some heval
        have hwmem : worst ∈ rankings := by
          have := List.mem_of_find?_eq_some h2
          exact List.mem_reverse.mp this
        have hwin : worst.agent_name ∈ current_agents := by
          have := List.find?_some h2
          simpa using this
        exact absurd hwin (h worst hwmem)

/-- Witness for C5: the concrete emitted decision rotates out an active agent
in favour of a non-active one. -/
theorem C5_membership_invariants_witness :
    evaluateRotationNeed [rkHigh, rkLow] "bull" "ts" = some d0 ∧
    d0.from_agent ∈ currentAgents ∧ d0.to_agent ∉ currentAgents := by
  have heval : evaluateRotationNeed [rkHigh, rkLow] "bull" "ts" = some d0 := by
    decide
  obtain ⟨hfrom, hto⟩ :=
    (C5_membership_invariants [rkHigh, rkLow] currentAgents "bull" "ts").1 d0
      heval
  exact ⟨heval, hfrom, hto⟩

/-! ## Claim C7 -/

/-- C7 counterexample: the same ranking and active set evaluated at two
different wall-clock instants yield decisions that are not equal (their
`decision_id` and `timestamp` fields embed the clock), so the emitted
decision is not a function of ranking and active set alone with all fields
equal. -/
theorem C7_counterexample :
    evaluateRotationNeed [rkHigh, rkLow] "bull" "20240101_000000" ≠
      evaluateRotationNeed [rkHigh, rkLow] "bull" "20240101_000001" := by
  decide

/-- C7 amended: the rotation evaluation is deterministic in its inputs up to
the wall-clock-derived fields: for any two run times it agrees on whether a
decision is emitted and on every field other than `decision_id` and
`timestamp` (source, target, reason, confidence, expected improvement,
regime). -/
theorem C7_deterministic_body (rankings : List RankingEntry)
    (current_agents : List String) (current_regime now1 now2 : String) :
    (evaluateRotationCore rankings current_agents current_regime now1).map
        decisionBody =
      (evaluateRotationCore rankings current_agents current_regime now2).map
        decisionBody := by
  unfold evaluateRotationCore
  dsimp only
  repeat' split
  all_goals rfl

/-! ## Claim C8 -/

/-- C8 counterexample: a draw of fallback base scores lying inside [0.4, 0.8]
(0.8 at roster position 3, the non-active SentimentAgent, 0.4 elsewhere)
makes the rotation engine emit a decision from the purely synthetic fallback
ranking, so a sustained outage does not guarantee that no rotation decision
is emitted. -/
theorem C8_counterexample :
    ((List.range agents.length).all
      (fun i => decide ((0.4 : ℚ) ≤ c8Draw i) && decide (c8Draw i ≤ 0.8))) =
        true ∧
    (evaluateRotationNeed (getFallbackRankings c8Draw (fun _ => 1)) "neutral"
        "ts").isSome = true := by
  exact ⟨by decide, by decide⟩

/-- C8 amended: under sustained outage the synthetic fallback ranking can
trigger rotation decisions; no decision is guaranteed only when the drawn
base scores all lie within 0.10 of one another, which the draw distribution
on [0.4, 0.8] does not ensure. -/
theorem C8_fallback_small_spread_no_decision (baseDraw rtDraw : ℕ → ℚ)
    (current_regime now : String)
    (h : ∀ i j, i < agents.length → j < agents.length →
      baseDraw i - baseDraw j ≤ 0.1) :
    evaluateRotationNeed (getFallbackRankings baseDraw rtDraw) current_regime
      now = none := by
  apply evaluateRotationCore_none_of_small_gaps
  intro a ha b hb
  obtain ⟨i, hi, hai⟩ := score_mem_getFallbackRankings baseDraw rtDraw a ha
  obtain ⟨j, hj, hbj⟩ := score_mem_getFallbackRankings baseDraw rtDraw b hb
  rw [hai, hbj]
  exact h i j hi hj

/-- Witness for the amended C8: with every base score drawn equal to 0.5 the
engine emits no decision. -/
theorem C8_fallback_small_spread_no_decision_witness :
    evaluateRotationNeed (getFallbackRankings (fun _ => 0.5) (fun _ => 1))
      "neutral" "ts" = none :=
  C8_fallback_small_spread_no_decision (fun _ => 0.5) (fun _ => 1) "neutral"
    "ts" (fun i j _ _ => by norm_num)

/-! ## Claim C6 -/

/-- C6 counterexample: even with no intervening change to any stored table,
two summary reads at different instants return different payloads, because
the `last_updated` field is stamped with the call time. -/
theorem C6_counterexample :
    getMetaEvaluationSummary emptyDb 0 ≠ getMetaEvaluationSummary emptyDb 1 := by
  decide

/-- C6 amended: two summary reads with no intervening change to the stored
regime analyses, rankings, rotation decisions or performance rows return
payloads identical in every field except the wall-clock `last_updated` stamp,
provided the trailing 24-hour aggregation window selects the same performance
rows at both call times. -/
theorem C6_idempotent_body (db : DbState) (now1 now2 : ℕ)
    (h : db.performance_rows.filter
        (fun p => decide (now1 ≤ p.created_at + 86400)) =
      db.performance_rows.filter
        (fun p => decide (now2 ≤ p.created_at + 86400))) :
    summaryBody (getMetaEvaluationSummary db now1) =
      summaryBody (getMetaEvaluationSummary db now2) := by
  unfold getMetaEvaluationSummary summaryBody
  dsimp only
  rw [h]

/-- Witness for the amended C6 on the empty store at times 0 and 1. -/
theorem C6_idempotent_body_witness :
    emptyDb.performance_rows.filter
        (fun p => decide (0 ≤ p.created_at + 86400)) =
      emptyDb.performance_rows.filter
        (fun p => decide (1 ≤ p.created_at + 86400)) ∧
    summaryBody (getMetaEvaluationSummary emptyDb 0) =
      summaryBody (getMetaEvaluationSummary emptyDb 1) :=
  ⟨rfl, C6_idempotent_body emptyDb 0 1 rfl⟩

end MetaEval
